import Mathlib

/-!
Verification of the RGB standard library client-side-validation layer:
the witness/anchor merge algebra (`src/containers/anchors.rs`), the
consignment container with its history replay (`src/containers/consignment.rs`)
and the inventory reconciliation contract (`std/src/persistence/inventory.rs`).

Modelling conventions:
- transaction ids, schema ids, contract ids, operation ids, bundle ids,
  seals and opaque hashes are `Nat`;
- external `BTreeMap`s are association lists; `BTreeMap::extend` keeps
  the right operand on shared keys, as the Rust method does;
- fallible code returns `Except`; a Rust `panic!` / `expect` / failed
  `assert_eq!` is an explicit `RustResult.panics` value (or `none` where the
  surrounding code only needs the absence of a result).
-/

namespace RgbStd

/-- An on-chain transaction (external `bp::Tx`). Its identifier is the hash
of its content; we model the identifier as a field and keep a second field of
auxiliary witness data so that two distinct transactions can share an
identifier, as the source TODO comment on `merge_reveal` anticipates. -/
structure Tx where
  txid : Nat
  witness_data : Nat
deriving DecidableEq, Repr

/-- `PubWitness` from `anchors.rs`: a reference to an on-chain transaction at
two fidelity levels. -/
inductive PubWitness where
  | Txid (txid : Nat)
  | Tx (tx : Tx)
deriving DecidableEq, Repr

/-- `PubWitness::txid` from `anchors.rs`. -/
def PubWitness.txid : PubWitness → Nat
  | .Txid t => t
  | .Tx tx => tx.txid

/-- `MergeRevealError` variants used by the witness merge code in
`anchors.rs` (the enum itself lives in the crate root). -/
inductive MergeRevealError where
  | TxidMismatch (a b : Nat)
  | ChainMismatch (bitcoin liquid : Nat)
  | AnchorsNonEqual (bundle_id : Nat)
deriving DecidableEq, Repr

/-- `PubWitness::merge_reveal` from `anchors.rs`. The second Rust match arm
is the or-pattern `(Self::Txid(txid), Self::Tx(tx)) | (Self::Txid(txid),
Self::Tx(tx))`, whose two alternatives are identical, so the `(Tx, Txid)`
argument order is NOT covered by it and falls through to the final catch-all
arm, which produces `TxidMismatch` even when the two identifiers agree. The
translation reproduces that fall-through faithfully. -/
def PubWitness.merge_reveal (a b : PubWitness) : Except MergeRevealError PubWitness :=
  match a, b with
  | .Txid txid1, .Txid txid2 =>
      if txid1 = txid2 then .ok (.Txid txid1)
      else .error (.TxidMismatch txid1 txid2)
  | .Txid txid, .Tx tx =>
      if txid = tx.txid then .ok (.Tx tx)
      else .error (.TxidMismatch txid tx.txid)
  | .Tx tx1, .Tx tx2 =>
      if tx1.txid = tx2.txid then .ok (.Tx tx1)
      else .error (.TxidMismatch tx1.txid tx2.txid)
  | .Tx tx, .Txid txid => .error (.TxidMismatch tx.txid txid)

/-- `rgb::XChain`: a value qualified by the chain it lives on. -/
inductive XChain (α : Type) where
  | Bitcoin (a : α)
  | Liquid (a : α)
deriving DecidableEq, Repr

/-- `XPubWitness = XChain<PubWitness>` from `anchors.rs`. -/
abbrev XPubWitness := XChain PubWitness

/-- `<XPubWitness as MergeReveal>::merge_reveal` from `anchors.rs`: delegate
within a matching chain, `ChainMismatch` across chains (the error fields are
normalised by role, the bitcoin identifier first). -/
def XPubWitness.merge_reveal (a b : XPubWitness) : Except MergeRevealError XPubWitness :=
  match a, b with
  | .Bitcoin one, .Bitcoin two => (one.merge_reveal two).map XChain.Bitcoin
  | .Liquid one, .Liquid two => (one.merge_reveal two).map XChain.Liquid
  | .Bitcoin bitcoin, .Liquid liquid =>
      .error (.ChainMismatch bitcoin.txid liquid.txid)
  | .Liquid liquid, .Bitcoin bitcoin =>
      .error (.ChainMismatch bitcoin.txid liquid.txid)

/-- Key-membership test on an association list standing for a `BTreeMap`. -/
def containsKey (m : List (Nat × Nat)) (k : Nat) : Bool :=
  m.any (fun p => p.fst == k)

/-- `BTreeMap::extend`: entries of the right map override entries of the left
map that share a key; all other entries of both maps are kept. -/
def extendMap (m1 m2 : List (Nat × Nat)) : List (Nat × Nat) :=
  m1.filter (fun p => !(containsKey m2 p.fst)) ++ m2

/-- Two known leaf-to-message maps are compatible when no leaf position is
claimed with two different messages. -/
def mpcCompatible (m1 m2 : List (Nat × Nat)) : Bool :=
  m1.all (fun p => m2.all (fun q => p.fst != q.fst || p.snd == q.snd))

/-- `bp::dbc::anchor::MergeError` conditions named by the spec for the
underlying proof merge: an unrelated proof (different embedding proof or
witness transaction) and a conflicting leaf. -/
inductive MergeError where
  | UnrelatedProof
  | LeafNotKnown
deriving DecidableEq, Repr

/-- Modelled from the spec: the external `bp::dbc::Anchor` commitment proof
(not part of this repository) is an opaque provable-proof type carrying a
multi-proof commitment structure mapping leaf positions to committed message
hashes (`mpc_proof`, association list) plus the transaction-embedding proof
(`dbc_proof`, opaque). -/
structure Anchor where
  mpc_proof : List (Nat × Nat)
  dbc_proof : Nat
deriving DecidableEq, Repr

/-- Modelled from the spec: the external anchor `merge` operation — fails
with an unrelated-proof condition when the embedding proofs differ, with a
leaf conflict when the two commitment structures claim the same leaf position
with different messages, and otherwise succeeds with the union of the two
known leaf maps. -/
def Anchor.merge_reveal (a b : Anchor) : Except MergeError Anchor :=
  if a.dbc_proof ≠ b.dbc_proof then .error .UnrelatedProof
  else if mpcCompatible a.mpc_proof b.mpc_proof then
    .ok ⟨extendMap a.mpc_proof b.mpc_proof, a.dbc_proof⟩
  else .error .LeafNotKnown

/-- `AnchorSet` from `anchors.rs`: one or two independent commitment proofs
(taproot / opret embedding mechanisms) into a single witness transaction. -/
inductive AnchorSet where
  | Tapret (tapret : Anchor)
  | Opret (opret : Anchor)
  | Double (tapret opret : Anchor)
deriving DecidableEq, Repr

/-- `AnchorSet::known_bundle_ids` from `anchors.rs`: the values of the known
leaf-to-message map of the proof, interpreted as bundle identifiers; for the
`Double` variant the tapret map is extended (per-key overridden) by the opret
map before taking the values, exactly as the source `map.extend` does. -/
def AnchorSet.known_bundle_ids : AnchorSet → List Nat
  | .Tapret tapret => tapret.mpc_proof.map Prod.snd
  | .Opret opret => opret.mpc_proof.map Prod.snd
  | .Double tapret opret => (extendMap tapret.mpc_proof opret.mpc_proof).map Prod.snd

/-- `AnchorSet::has_tapret` from `anchors.rs`. -/
def AnchorSet.has_tapret : AnchorSet → Bool
  | .Tapret _ => true
  | .Double _ _ => true
  | .Opret _ => false

/-- `AnchorSet::has_opret` from `anchors.rs`. -/
def AnchorSet.has_opret : AnchorSet → Bool
  | .Opret _ => true
  | .Double _ _ => true
  | .Tapret _ => false

/-- `AnchorSet::merge_reveal` from `anchors.rs`: same-mechanism proofs merge
via the underlying anchor merge, cross-mechanism pairs combine into `Double`,
a `Double` merged with a single-mechanism value merges the matching side and
passes the other side through; the `?` early returns are explicit matches. -/
def AnchorSet.merge_reveal (a b : AnchorSet) : Except MergeError AnchorSet :=
  match a, b with
  | .Tapret anchor, .Tapret x =>
      match anchor.merge_reveal x with
      | .error e => .error e
      | .ok m => .ok (.Tapret m)
  | .Opret anchor, .Opret x =>
      match anchor.merge_reveal x with
      | .error e => .error e
      | .ok m => .ok (.Opret m)
  | .Tapret tapret, .Opret opret => .ok (.Double tapret opret)
  | .Opret opret, .Tapret tapret => .ok (.Double tapret opret)
  | .Double tapret opret, .Tapret t =>
      match tapret.merge_reveal t with
      | .error e => .error e
      | .ok m => .ok (.Double m opret)
  | .Tapret t, .Double tapret opret =>
      match tapret.merge_reveal t with
      | .error e => .error e
      | .ok m => .ok (.Double m opret)
  | .Double tapret opret, .Opret o =>
      match opret.merge_reveal o with
      | .error e => .error e
      | .ok m => .ok (.Double tapret m)
  | .Opret o, .Double tapret opret =>
      match opret.merge_reveal o with
      | .error e => .error e
      | .ok m => .ok (.Double tapret m)
  | .Double tapret opret, .Double t o =>
      match tapret.merge_reveal t with
      | .error e => .error e
      | .ok tp =>
          match opret.merge_reveal o with
          | .error e => .error e
          | .ok op => .ok (.Double tp op)

/-- A concrete tapret anchor knowing bundle id 10 at leaf position 1. -/
def c9_tapret : Anchor := ⟨[(1, 10)], 0⟩

/-- A concrete opret anchor knowing bundle id 20 at the same leaf position. -/
def c9_opret : Anchor := ⟨[(1, 20)], 0⟩

/-- A tapret anchor with an empty known map, for witnesses. -/
def c5_t : Anchor := ⟨[], 0⟩

/-- An opret anchor with an empty known map, for witnesses. -/
def c5_o : Anchor := ⟨[], 1⟩

/-- An assignment seal inside a transition: present either as a commitment
hash only (concealed) or in plaintext (revealed). The concealment hash of a
revealed seal is modelled by the seal value itself (an opaque injective
hash). -/
inductive Seal where
  | concealed (h : Nat)
  | revealed (s : Nat)
deriving DecidableEq, Repr

/-- External `rgb::Transition`, as consumed by this layer: its operation id,
the operation ids of its previous outputs (`inputs[..].prev_out.op`), and the
seals of its assignments. -/
structure Transition where
  id : Nat
  inputs : List Nat
  seals : List Seal
deriving DecidableEq, Repr

/-- External `rgb::Extension`, as consumed by this layer: its operation
id. -/
structure Extension where
  id : Nat
deriving DecidableEq, Repr

/-- External `rgb::validation::AnchoredBundle`: an anchor (of which this
layer reads only the witness transaction id), the bundle id (the commitment
hash of the bundle, stable under revelation), and the transition bundle — a
map from operation id to an entry holding either a revealed transition or a
concealed placeholder (`none`). -/
structure AnchoredBundle where
  anchor_txid : Nat
  bundle_id : Nat
  bundle : List (Nat × Option Transition)
deriving DecidableEq, Repr

/-- `Terminal` from the containers module: a bundle id with a set of
revealed seals. -/
structure Terminal where
  bundle_id : Nat
  seals : List Nat
deriving DecidableEq, Repr

/-- External `rgb::SubSchema`: its identifier (an opaque hash, modelled as a
field) and the optional root schema it is a subset of (carried as the root
schema identifier). -/
structure SubSchema where
  schema_id : Nat
  subset_of : Option Nat
deriving DecidableEq, Repr

/-- External `rgb::Genesis`: the schema id it declares, the contract id it
hashes to, and its operation id. -/
structure Genesis where
  schema_id : Nat
  contract_id : Nat
  id : Nat
deriving DecidableEq, Repr

/-- External `rgb::WitnessAnchor`: the `(resolved height, txid)` ordering key
used to replay history, ordered lexicographically. -/
structure WitnessAnchor where
  height : Nat
  txid : Nat
deriving DecidableEq, Repr

/-- The strict lexicographic order on witness anchors (`Ord` on
`WitnessAnchor`). -/
def WitnessAnchor.lt (a b : WitnessAnchor) : Bool :=
  Nat.blt a.height b.height || (a.height == b.height && Nat.blt a.txid b.txid)

/-- Modelled from the spec: the external `rgb::ContractHistory` accumulates
transitions and extensions keyed by a witness-anchor ordering key, seeded
from the schema, root schema, contract id and genesis. We record the applied
operations as `(ordering key, operation id)` entries in application order. -/
structure ContractHistory where
  schema_id : Nat
  root_schema_id : Option Nat
  contract_id : Nat
  transitions : List (WitnessAnchor × Nat)
  extensions : List (WitnessAnchor × Nat)
deriving DecidableEq, Repr

/-- Modelled from the spec: `ContractHistory::with` seeds an empty history
from genesis. -/
def ContractHistory.with (schema_id : Nat) (root_schema_id : Option Nat)
    (contract_id : Nat) (_genesis : Genesis) : ContractHistory :=
  ⟨schema_id, root_schema_id, contract_id, [], []⟩

/-- Modelled from the spec: `ContractHistory::add_transition` applies a
transition at an ordering key. -/
def ContractHistory.add_transition (h : ContractHistory) (t : Transition)
    (ord : WitnessAnchor) : ContractHistory :=
  { h with transitions := h.transitions ++ [(ord, t.id)] }

/-- Modelled from the spec: `ContractHistory::add_extension` applies an
extension at an ordering key. -/
def ContractHistory.add_extension (h : ContractHistory) (e : Extension)
    (ord : WitnessAnchor) : ContractHistory :=
  { h with extensions := h.extensions ++ [(ord, e.id)] }

/-- Lookup in an association list standing for a `BTreeMap`. -/
def lookupA {α : Type} (m : List (Nat × α)) (k : Nat) : Option α :=
  match m with
  | [] => none
  | p :: rest => if p.fst == k then some p.snd else lookupA rest k

/-- Insert-or-replace in an association list standing for a `BTreeMap`. -/
def insertA {α : Type} (m : List (Nat × α)) (k : Nat) (v : α) : List (Nat × α) :=
  match m with
  | [] => [(k, v)]
  | p :: rest => if p.fst == k then (k, v) :: rest else p :: insertA rest k v

/-- `Consignment` from `consignment.rs`. The `TYPE` const generic only picks
the default value of the `transfer` field, so it is dropped and the runtime
field kept. Bounded collections are lists; opaque contents are `Nat`. -/
structure Consignment where
  validation_status : Option Nat
  version : Nat
  transfer : Bool
  schema : SubSchema
  ifaces : List (Nat × Nat)
  supplements : List Nat
  asset_tags : List (Nat × Nat)
  genesis : Genesis
  terminals : List Terminal
  bundles : List AnchoredBundle
  extensions : List Extension
  attachments : List (Nat × Nat)
  signatures : List (Nat × Nat)
deriving DecidableEq, Repr

/-- `Consignment::new` from `consignment.rs`. The source asserts
`schema.schema_id() == genesis.schema_id` (panicking otherwise), which is
modelled by returning `none`; on success every collection starts empty, the
version is V2 (modelled as 2) and the transfer flag is the `TYPE` const. -/
def Consignment.new (ty : Bool) (schema : SubSchema) (genesis : Genesis) :
    Option Consignment :=
  if schema.schema_id = genesis.schema_id then
    some { validation_status := none
           version := 2
           transfer := ty
           schema := schema
           ifaces := []
           supplements := []
           asset_tags := []
           genesis := genesis
           terminals := []
           bundles := []
           extensions := []
           attachments := []
           signatures := [] }
  else none

/-- `Consignment::schema_id` from `consignment.rs`. -/
def Consignment.schema_id (c : Consignment) : Nat := c.schema.schema_id

/-- `Consignment::root_schema_id` from `consignment.rs`. -/
def Consignment.root_schema_id (c : Consignment) : Option Nat := c.schema.subset_of

/-- `Consignment::contract_id` from `consignment.rs`. -/
def Consignment.contract_id (c : Consignment) : Nat := c.genesis.contract_id

/-- `Consignment::update_history` from `consignment.rs`, translated loop by
loop: start from the given history or seed one from genesis; for every
revealed transition of every anchored bundle resolve the anchor txid to a
height, apply the transition at `(height, txid)`, and scan the extension
index — an extension already marked used is skipped (the Rust
`if *used { continue; }`), otherwise each input matching the extension id
marks it used and records the ordering key, taking the smaller key only when
an entry already exists; afterwards every extension with a recorded key is
applied at it. -/
def Consignment.update_history (c : Consignment) (prev : Option ContractHistory)
    (resolver : Nat → Except Nat Nat) : Except Nat ContractHistory := do
  let mut history := match prev with
    | some h => h
    | none => ContractHistory.with c.schema_id c.root_schema_id c.contract_id c.genesis
  let mut extension_idx : List (Nat × Bool) := c.extensions.map (fun e => (e.id, false))
  let mut ordered_extensions : List (Nat × WitnessAnchor) := []
  for anchored_bundle in c.bundles do
    for item in anchored_bundle.bundle do
      match item.snd with
      | none => pure ()
      | some transition =>
          let txid := anchored_bundle.anchor_txid
          let height ← resolver txid
          let ord_txid : WitnessAnchor := ⟨height, txid⟩
          history := history.add_transition transition ord_txid
          let mut idx_out : List (Nat × Bool) := []
          for pair in extension_idx do
            if pair.snd then
              idx_out := idx_out ++ [pair]
            else
              let mut used := pair.snd
              for inp in transition.inputs do
                if inp == pair.fst then
                  used := true
                  match lookupA ordered_extensions pair.fst with
                  | some ord =>
                      if WitnessAnchor.lt ord_txid ord then
                        ordered_extensions := insertA ordered_extensions pair.fst ord_txid
                  | none =>
                      ordered_extensions := insertA ordered_extensions pair.fst ord_txid
              idx_out := idx_out ++ [(pair.fst, used)]
          extension_idx := idx_out
  for extension in c.extensions do
    match lookupA ordered_extensions extension.id with
    | some ord => history := history.add_extension extension ord
    | none => pure ()
  return history

/-- `BundleExt::reveal_seal` applied to one transition: every concealed seal
whose commitment matches the revealed seal is replaced by the revealed
form. -/
def Transition.reveal_seal (t : Transition) (r : Nat) : Transition :=
  { t with seals := t.seals.map (fun s =>
      match s with
      | .concealed h => if h == r then .revealed r else .concealed h
      | .revealed s => .revealed s) }

/-- `BundleExt::reveal_seal` lifted to a transition bundle. -/
def bundleRevealSeal (bundle : List (Nat × Option Transition)) (r : Nat) :
    List (Nat × Option Transition) :=
  bundle.map (fun p => (p.fst, p.snd.map (fun t => t.reveal_seal r)))

/-- `Consignment::reveal_bundle_seal` from `consignment.rs`: reveal the seal
in every anchored bundle whose bundle id matches. -/
def Consignment.reveal_bundle_seal (c : Consignment) (bundle_id : Nat) (revealed : Nat) :
    Consignment :=
  { c with bundles := c.bundles.map (fun ab =>
      if ab.bundle_id == bundle_id then
        { ab with bundle := bundleRevealSeal ab.bundle revealed }
      else ab) }

/-- `Consignment::into_contract` from `consignment.rs`: rebuild the record
with `transfer := false` and every other field taken from `self`. -/
def Consignment.into_contract (c : Consignment) : Consignment :=
  { validation_status := c.validation_status
    version := c.version
    transfer := false
    schema := c.schema
    ifaces := c.ifaces
    supplements := c.supplements
    asset_tags := c.asset_tags
    genesis := c.genesis
    terminals := c.terminals
    bundles := c.bundles
    extensions := c.extensions
    attachments := c.attachments
    signatures := c.signatures }

deriving instance DecidableEq for Except

/-- The observable outcome of a Rust computation that may panic: either an
abort of the process (`panics`, from `expect` / `assert`) or a returned
value. -/
inductive RustResult (ε α : Type) where
  | panics
  | returns (r : Except ε α)
deriving DecidableEq, Repr

/-- `Inventory::transition` from `inventory.rs`, the provided trait method,
parameterised by the store implementation of `Inventory::anchored_bundle`:
an error of the lookup is propagated; otherwise the bundle entry for the
requested operation id is taken (`bundle.remove(&opid)`) and unwrapped with
two `expect` calls — a missing entry and a found-but-concealed entry both
leave no revealed transition, so both abort via the second `expect`. (The
first `expect` guards only the external confinement error of `remove`, which
is also an abort and is not modelled separately.) -/
def Inventory.transition {ε : Type} (anchored_bundle : Nat → Except ε AnchoredBundle)
    (opid : Nat) : RustResult ε Transition :=
  match anchored_bundle opid with
  | .error e => .returns (.error e)
  | .ok ab =>
      match lookupA ab.bundle opid with
      | none => .panics
      | some none => .panics
      | some (some t) => .returns (.ok t)

/-- `ConsignerError` from `inventory.rs` (payloads of the wrapped error
variants are opaque). -/
inductive ConsignerError where
  | TooManyTerminals
  | TooManyBundles
  | Reveal (code : Nat)
  | InventoryError (code : Nat)
  | StashError (code : Nat)
deriving DecidableEq, Repr

/-- Maximum element count of a large confined collection
(`LargeVec`, `u32::MAX`). -/
def largeMax : Nat := 4294967295

/-- Maximum element count of a small confined collection
(`SmallOrdMap` / small set tier, `u16::MAX`). -/
def smallMax : Nat := 65535

/-- Maximum element count of a tiny confined collection
(`TinyOrdMap`, `u8::MAX`). -/
def tinyMax : Nat := 255

/-- `Confined::try_from_iter` into the large tier: fails (`None`) instead of
truncating when the element count exceeds the maximum. -/
def confineLarge {α : Type} (l : List α) : Option (List α) :=
  if l.length ≤ largeMax then some l else none

/-- `Confined::try_from` into the small tier: fails (`None`) instead of
truncating when the element count exceeds the maximum. -/
def confineSmall {α : Type} (l : List α) : Option (List α) :=
  if l.length ≤ smallMax then some l else none

/-- The assembly step of `Inventory::consign` from `inventory.rs` (the code
after the graph traversal): build the consignment from schema and genesis
(the `Consignment::new` assertion panic propagates), insert the interface
pairs (whose confinement `expect` aborts past the tiny tier), then confine
the collected anchored bundles — mapping overflow to `TooManyBundles` — and
the collected terminals — mapping overflow to `TooManyTerminals`. -/
def Inventory.consignAssemble (ty : Bool) (schema : SubSchema) (genesis : Genesis)
    (iface_pairs : List (Nat × Nat)) (anchored_bundles : List AnchoredBundle)
    (terminals : List Terminal) : RustResult ConsignerError Consignment :=
  match Consignment.new ty schema genesis with
  | none => .panics
  | some c0 =>
      if iface_pairs.length ≤ tinyMax then
        match confineLarge anchored_bundles with
        | none => .returns (.error .TooManyBundles)
        | some bs =>
            match confineSmall terminals with
            | none => .returns (.error .TooManyTerminals)
            | some ts =>
                .returns (.ok { c0 with ifaces := iface_pairs, bundles := bs,
                                        terminals := ts })
      else .panics

/-- A bundle anchored at txid 101 (resolving to height 100) whose single
revealed transition (operation 1) spends an output of extension 5. -/
def c3_bundle_high : AnchoredBundle := ⟨101, 11, [(1, some ⟨1, [5], []⟩)]⟩

/-- A bundle anchored at txid 51 (resolving to height 50) whose single
revealed transition (operation 2) also spends an output of extension 5. -/
def c3_bundle_low : AnchoredBundle := ⟨51, 12, [(2, some ⟨2, [5], []⟩)]⟩

/-- A consignment holding the two bundles above (the height-100 bundle
first) and extension 5. -/
def c3_consignment : Consignment :=
  { validation_status := none
    version := 2
    transfer := false
    schema := ⟨7, none⟩
    ifaces := []
    supplements := []
    asset_tags := []
    genesis := ⟨7, 3, 4⟩
    terminals := []
    bundles := [c3_bundle_high, c3_bundle_low]
    extensions := [⟨5⟩]
    attachments := []
    signatures := [] }

/-- A height resolver mapping txid 101 to height 100 and txid 51 to
height 50. -/
def c3_resolver : Nat → Except Nat Nat := fun t => .ok (t - 1)

/-- A bundle whose entry for operation 7 is a concealed placeholder. -/
def c4_bundle : AnchoredBundle := ⟨9, 10, [(7, none)]⟩

/-- A store lookup that finds `c4_bundle` for every operation id. -/
def c4_anchored_bundle : Nat → Except Nat AnchoredBundle := fun _ => .ok c4_bundle

/-- A collected bundle list one element past the large-tier capacity. -/
def c6_big_bundles : List AnchoredBundle := List.replicate (largeMax + 1) c4_bundle

/-- A collected terminal set one element past the small-tier capacity. -/
def c6_big_terminals : List Terminal := List.replicate (smallMax + 1) ⟨1, []⟩

end RgbStd

namespace RgbStd

/-- Claim C1 (code evaluation): merging a Full-transaction witness with an
Identifier-only witness carrying the same identifier, in this argument order,
fails with a `TxidMismatch` whose two identifiers are equal, instead of
succeeding as the claim states; the `(Tx, Txid)` case is lost by the
duplicated or-pattern in the source. -/
theorem C1_merge_tx_txid_same_id_fails :
    PubWitness.merge_reveal (.Tx ⟨1, 0⟩) (.Txid 1) = .error (.TxidMismatch 1 1) := rfl

/-- Claim C2 (code evaluation): `PubWitness::merge_reveal` is not commutative
in outcome: with equal identifiers, `(Txid, Tx)` succeeds while `(Tx, Txid)`
fails. -/
theorem C2_merge_reveal_not_commutative :
    PubWitness.merge_reveal (.Txid 1) (.Tx ⟨1, 0⟩) = .ok (.Tx ⟨1, 0⟩)
    ∧ PubWitness.merge_reveal (.Tx ⟨1, 0⟩) (.Txid 1) = .error (.TxidMismatch 1 1) :=
  ⟨rfl, rfl⟩

/-- Claim C8: merging two chain-qualified witnesses of different chains fails
in either argument order with `ChainMismatch` carrying both transaction
identifiers; same-chain merge delegates to `PubWitness::merge_reveal` and
keeps the chain tag, so every success is wrapped in the common chain
constructor. -/
theorem C8_xchain_merge_chain_discipline (a b : PubWitness) :
    XPubWitness.merge_reveal (.Bitcoin a) (.Liquid b)
      = .error (.ChainMismatch a.txid b.txid)
    ∧ XPubWitness.merge_reveal (.Liquid b) (.Bitcoin a)
      = .error (.ChainMismatch a.txid b.txid)
    ∧ XPubWitness.merge_reveal (.Bitcoin a) (.Bitcoin b)
      = (a.merge_reveal b).map XChain.Bitcoin
    ∧ XPubWitness.merge_reveal (.Liquid a) (.Liquid b)
      = (a.merge_reveal b).map XChain.Liquid
    ∧ (∀ r, XPubWitness.merge_reveal (.Bitcoin a) (.Bitcoin b) = .ok r →
        ∃ w, r = .Bitcoin w ∧ a.merge_reveal b = .ok w)
    ∧ (∀ r, XPubWitness.merge_reveal (.Liquid a) (.Liquid b) = .ok r →
        ∃ w, r = .Liquid w ∧ a.merge_reveal b = .ok w) := by
  refine ⟨rfl, rfl, rfl, rfl, ?_, ?_⟩
  · intro r h
    cases hm : a.merge_reveal b with
    | error e =>
        rw [XPubWitness.merge_reveal, hm] at h
        exact absurd h (by simp [Except.map])
    | ok w =>
        rw [XPubWitness.merge_reveal, hm] at h
        simp [Except.map] at h
        exact ⟨w, h.symm, rfl⟩
  · intro r h
    cases hm : a.merge_reveal b with
    | error e =>
        rw [XPubWitness.merge_reveal, hm] at h
        exact absurd h (by simp [Except.map])
    | ok w =>
        rw [XPubWitness.merge_reveal, hm] at h
        simp [Except.map] at h
        exact ⟨w, h.symm, rfl⟩

/-- Witness for C8: the success-tag conjunct applied at concrete inputs. -/
theorem C8_xchain_merge_chain_discipline_witness :
    ∃ w, (XChain.Bitcoin (PubWitness.Txid 5) : XPubWitness) = .Bitcoin w
      ∧ PubWitness.merge_reveal (.Txid 5) (.Txid 5) = .ok w := by
  have h := (C8_xchain_merge_chain_discipline (.Txid 5) (.Txid 5)).2.2.2.2.1
  exact h (.Bitcoin (.Txid 5)) rfl

/-- The values of an association list contain `b` exactly when some key maps
to `b`. -/
theorem mem_map_snd (l : List (Nat × Nat)) (b : Nat) :
    b ∈ l.map Prod.snd ↔ ∃ pos, (pos, b) ∈ l := by
  simp only [List.mem_map]
  constructor
  · rintro ⟨⟨p, v⟩, hmem, rfl⟩
    exact ⟨p, hmem⟩
  · rintro ⟨p, hmem⟩
    exact ⟨⟨p, b⟩, hmem, rfl⟩

/-- Claim C5: `AnchorSet::merge_reveal` covers all variant pairings without
dropping a proof: cross-mechanism pairs combine losslessly into `Double` in
either order; same-mechanism pairs merge via the underlying anchor merge,
propagating its error; a `Double` merged with a single-mechanism value merges
only the matching side and passes the other side through unchanged, in either
order; and on every success the result carries a tapret proof iff some input
did and an opret proof iff some input did. -/
theorem C5_anchorset_merge_pairings :
    (∀ t o, AnchorSet.merge_reveal (.Tapret t) (.Opret o) = .ok (.Double t o)
      ∧ AnchorSet.merge_reveal (.Opret o) (.Tapret t) = .ok (.Double t o))
    ∧ (∀ a b, AnchorSet.merge_reveal (.Tapret a) (.Tapret b)
          = (a.merge_reveal b).map AnchorSet.Tapret
      ∧ AnchorSet.merge_reveal (.Opret a) (.Opret b)
          = (a.merge_reveal b).map AnchorSet.Opret)
    ∧ (∀ t o x, AnchorSet.merge_reveal (.Double t o) (.Tapret x)
          = (t.merge_reveal x).map (fun m => AnchorSet.Double m o)
      ∧ AnchorSet.merge_reveal (.Tapret x) (.Double t o)
          = (t.merge_reveal x).map (fun m => AnchorSet.Double m o)
      ∧ AnchorSet.merge_reveal (.Double t o) (.Opret x)
          = (o.merge_reveal x).map (fun m => AnchorSet.Double t m)
      ∧ AnchorSet.merge_reveal (.Opret x) (.Double t o)
          = (o.merge_reveal x).map (fun m => AnchorSet.Double t m))
    ∧ (∀ x y r, AnchorSet.merge_reveal x y = .ok r →
        r.has_tapret = (x.has_tapret || y.has_tapret)
        ∧ r.has_opret = (x.has_opret || y.has_opret)) := by
  refine ⟨fun t o => ⟨rfl, rfl⟩, ?_, ?_, ?_⟩
  · intro a b
    constructor <;>
      cases h : a.merge_reveal b <;>
      simp [AnchorSet.merge_reveal, h, Except.map]
  · intro t o x
    refine ⟨?_, ?_, ?_, ?_⟩
    · cases h : t.merge_reveal x <;> simp [AnchorSet.merge_reveal, h, Except.map]
    · cases h : t.merge_reveal x <;> simp [AnchorSet.merge_reveal, h, Except.map]
    · cases h : o.merge_reveal x <;> simp [AnchorSet.merge_reveal, h, Except.map]
    · cases h : o.merge_reveal x <;> simp [AnchorSet.merge_reveal, h, Except.map]
  · intro x y r h
    cases x <;> cases y <;>
      simp only [AnchorSet.merge_reveal] at h <;>
      (try split at h) <;>
      (try split at h) <;>
      (try cases h) <;>
      simp [AnchorSet.has_tapret, AnchorSet.has_opret]

/-- Witness for C5: the success-propagation conjunct applied to the concrete
cross-mechanism pair. -/
theorem C5_anchorset_merge_pairings_witness :
    (AnchorSet.Double c5_t c5_o).has_tapret
      = ((AnchorSet.Tapret c5_t).has_tapret || (AnchorSet.Opret c5_o).has_tapret) := by
  have h := C5_anchorset_merge_pairings.2.2.2
      (.Tapret c5_t) (.Opret c5_o) (.Double c5_t c5_o) rfl
  exact h.1

/-- Claim C9 (counterexample): for a `Double` anchor set whose two proofs
know the same leaf position with different messages, `known_bundle_ids` drops
the tapret side entirely: id 10 is recoverable from the tapret proof alone
but is not yielded for the combined variant, so the result is not the union
of the per-mechanism id sets. -/
theorem C9_known_bundle_ids_counterexample :
    10 ∈ AnchorSet.known_bundle_ids (.Tapret c9_tapret)
    ∧ AnchorSet.known_bundle_ids (.Double c9_tapret c9_opret) = [20] := by
  constructor
  · decide
  · decide

/-- Claim C9 (amended): `known_bundle_ids` yields exactly the values of the
known leaf-to-message map for a single-mechanism variant; for the `Double`
variant the two maps are combined per leaf position with the opret entry
overriding the tapret entry on a shared position, so an id is yielded iff
the opret proof knows it, or the tapret proof knows it at a position the
opret proof does not claim. -/
theorem C9_known_bundle_ids_membership (t o : Anchor) (b : Nat) :
    (b ∈ AnchorSet.known_bundle_ids (.Tapret t) ↔ ∃ pos, (pos, b) ∈ t.mpc_proof)
    ∧ (b ∈ AnchorSet.known_bundle_ids (.Opret o) ↔ ∃ pos, (pos, b) ∈ o.mpc_proof)
    ∧ (b ∈ AnchorSet.known_bundle_ids (.Double t o) ↔
        (∃ pos, (pos, b) ∈ o.mpc_proof)
        ∨ (∃ pos, (pos, b) ∈ t.mpc_proof ∧ containsKey o.mpc_proof pos = false)) := by
  refine ⟨mem_map_snd _ _, mem_map_snd _ _, ?_⟩
  simp only [AnchorSet.known_bundle_ids, extendMap, List.map_append, List.mem_append,
    mem_map_snd, List.mem_filter, Bool.not_eq_true']
  exact or_comm

/-- Witness for C9: the `Double` membership characterisation applied to the
concrete conflicting anchors. -/
theorem C9_known_bundle_ids_membership_witness :
    20 ∈ AnchorSet.known_bundle_ids (.Double c9_tapret c9_opret) := by
  have h := (C9_known_bundle_ids_membership c9_tapret c9_opret 20).2.2
  exact h.mpr (Or.inl ⟨1, by decide⟩)

/-- Claim C3 (code evaluation): extension 5 is referenced by a transition
anchored at height 100 (first in bundle order) and by a transition anchored
at height 50, yet the history applies it at `(100, 101)` — the key of the
first referencing transition — although `(50, 51)` is the strictly smaller
ordering key: the minimum-taking branch is unreachable because the used flag
makes later transitions skip the extension. -/
theorem C3_extension_placed_at_first_reference :
    (c3_consignment.update_history none c3_resolver).map ContractHistory.extensions
      = .ok [(⟨100, 101⟩, 5)]
    ∧ WitnessAnchor.lt ⟨50, 51⟩ ⟨100, 101⟩ = true :=
  ⟨rfl, rfl⟩

/-- Claim C4 (counterexample): `Inventory::transition` aborts the process
(panics through `expect`) both when the bundle found for the operation id
holds a concealed entry for it (opid 7) and when the bundle does not contain
the operation id at all (opid 1); it does not return an error value in
either case, contrary to the claim. -/
theorem C4_transition_panics_counterexample :
    Inventory.transition c4_anchored_bundle 7 = RustResult.panics
    ∧ Inventory.transition c4_anchored_bundle 1 = RustResult.panics :=
  ⟨rfl, rfl⟩

/-- Claim C4 (amended): for every store lookup function and operation id,
`Inventory::transition` panics exactly when the lookup succeeds but its
bundle has no revealed transition under the requested id (entry missing or
concealed); it returns an error exactly when the lookup itself errs, and it
returns a transition exactly when the bundle holds it revealed. -/
theorem C4_transition_outcomes {ε : Type} [DecidableEq ε]
    (ab : Nat → Except ε AnchoredBundle) (opid : Nat) :
    (Inventory.transition ab opid = RustResult.panics ↔
      ∃ b, ab opid = Except.ok b
        ∧ Option.bind (lookupA b.bundle opid) (fun x => x) = none)
    ∧ (∀ e, Inventory.transition ab opid = RustResult.returns (Except.error e) ↔
        ab opid = Except.error e)
    ∧ (∀ t, Inventory.transition ab opid = RustResult.returns (Except.ok t) ↔
        ∃ b, ab opid = Except.ok b ∧ lookupA b.bundle opid = some (some t)) := by
  cases hab : ab opid with
  | error e =>
      simp [Inventory.transition, hab]
  | ok b =>
      cases hl : lookupA b.bundle opid with
      | none => simp [Inventory.transition, hab, hl]
      | some it =>
          cases it with
          | none => simp [Inventory.transition, hab, hl]
          | some t => simp [Inventory.transition, hab, hl]

/-- Witness for C4: the panic characterisation applied at a concrete store
whose bundle entry is concealed. -/
theorem C4_transition_outcomes_witness :
    Inventory.transition c4_anchored_bundle 7 = RustResult.panics := by
  have h := (C4_transition_outcomes c4_anchored_bundle 7).1
  exact h.mpr ⟨c4_bundle, rfl, rfl⟩

/-- Claim C6: the consignment assembly step fails with `TooManyBundles` when
the collected anchored bundles exceed the large-tier capacity, with
`TooManyTerminals` when the bundles fit but the collected terminals exceed
the small-tier capacity (the bundle check runs first in the source), and on
success the consignment carries exactly the collected bundles and terminals,
never a truncation. -/
theorem C6_consign_capacity_errors (ty : Bool) (schema : SubSchema) (genesis : Genesis)
    (ifp : List (Nat × Nat)) (bs : List AnchoredBundle) (ts : List Terminal)
    (hs : schema.schema_id = genesis.schema_id) (hi : ifp.length ≤ tinyMax) :
    (largeMax < bs.length →
      Inventory.consignAssemble ty schema genesis ifp bs ts
        = .returns (.error .TooManyBundles))
    ∧ (bs.length ≤ largeMax → smallMax < ts.length →
      Inventory.consignAssemble ty schema genesis ifp bs ts
        = .returns (.error .TooManyTerminals))
    ∧ (∀ c, Inventory.consignAssemble ty schema genesis ifp bs ts
        = .returns (.ok c) → c.bundles = bs ∧ c.terminals = ts) := by
  refine ⟨?_, ?_, ?_⟩
  · intro h
    simp [Inventory.consignAssemble, Consignment.new, hs, hi, confineLarge,
      Nat.not_le.mpr h]
  · intro h1 h2
    simp [Inventory.consignAssemble, Consignment.new, hs, hi, confineLarge,
      confineSmall, h1, Nat.not_le.mpr h2]
  · intro c hc
    by_cases h1 : bs.length ≤ largeMax
    · by_cases h2 : ts.length ≤ smallMax
      · simp only [Inventory.consignAssemble, Consignment.new, if_pos hs, if_pos hi,
          confineLarge, confineSmall, if_pos h1, if_pos h2] at hc
        simp only [RustResult.returns.injEq, Except.ok.injEq] at hc
        subst hc
        exact ⟨rfl, rfl⟩
      · simp [Inventory.consignAssemble, Consignment.new, hs, hi, confineLarge,
          confineSmall, h1, h2] at hc
    · simp [Inventory.consignAssemble, Consignment.new, hs, hi, confineLarge, h1] at hc

/-- Witness for C6: the two capacity errors observed on concrete oversized
collections. -/
theorem C6_consign_capacity_errors_witness :
    Inventory.consignAssemble false ⟨7, none⟩ ⟨7, 3, 4⟩ [] c6_big_bundles []
      = .returns (.error .TooManyBundles)
    ∧ Inventory.consignAssemble false ⟨7, none⟩ ⟨7, 3, 4⟩ [] [] c6_big_terminals
      = .returns (.error .TooManyTerminals) := by
  have h1 := C6_consign_capacity_errors false ⟨7, none⟩ ⟨7, 3, 4⟩ []
      c6_big_bundles [] rfl (by decide)
  have h2 := C6_consign_capacity_errors false ⟨7, none⟩ ⟨7, 3, 4⟩ []
      [] c6_big_terminals rfl (by decide)
  refine ⟨h1.1 ?_, h2.2.1 (by decide) ?_⟩
  · simp only [c6_big_bundles, List.length_replicate]
    omega
  · simp only [c6_big_terminals, List.length_replicate]
    omega

/-- Claim C7: every consignment built by `Consignment::new` satisfies
`schema.schema_id = genesis.schema_id` (a mismatching pair is rejected), and
the operations returning a consignment — seal revelation and the conversion
to a contract — keep the schema and the genesis unchanged. -/
theorem C7_schema_genesis_invariant :
    (∀ ty s g c, Consignment.new ty s g = some c →
      c.schema = s ∧ c.genesis = g ∧ s.schema_id = g.schema_id)
    ∧ (∀ ty s g, s.schema_id ≠ g.schema_id → Consignment.new ty s g = none)
    ∧ (∀ c bid r, (Consignment.reveal_bundle_seal c bid r).schema = c.schema
        ∧ (Consignment.reveal_bundle_seal c bid r).genesis = c.genesis)
    ∧ (∀ c, (Consignment.into_contract c).schema = c.schema
        ∧ (Consignment.into_contract c).genesis = c.genesis) := by
  refine ⟨?_, ?_, fun c bid r => ⟨rfl, rfl⟩, fun c => ⟨rfl, rfl⟩⟩
  · intro ty s g c h
    simp only [Consignment.new] at h
    split at h
    · cases h with
      | refl => exact ⟨rfl, rfl, by assumption⟩
    · cases h
  · intro ty s g hne
    simp only [Consignment.new]
    exact if_neg hne

/-- Witness for C7: a mismatching schema and genesis pair is rejected. -/
theorem C7_schema_genesis_invariant_witness :
    (⟨2, none⟩ : SubSchema).schema_id ≠ (⟨3, 9, 4⟩ : Genesis).schema_id
    ∧ Consignment.new false ⟨2, none⟩ ⟨3, 9, 4⟩ = none := by
  have h := C7_schema_genesis_invariant.2.1 false ⟨2, none⟩ ⟨3, 9, 4⟩ (by decide)
  exact ⟨by decide, h⟩

/-- Claim C10: `Consignment::into_contract` sets the transfer flag to false
and copies every other field of the consignment unchanged. -/
theorem C10_into_contract_frame (c : Consignment) :
    (Consignment.into_contract c).transfer = false
    ∧ (Consignment.into_contract c).validation_status = c.validation_status
    ∧ (Consignment.into_contract c).version = c.version
    ∧ (Consignment.into_contract c).schema = c.schema
    ∧ (Consignment.into_contract c).ifaces = c.ifaces
    ∧ (Consignment.into_contract c).supplements = c.supplements
    ∧ (Consignment.into_contract c).asset_tags = c.asset_tags
    ∧ (Consignment.into_contract c).genesis = c.genesis
    ∧ (Consignment.into_contract c).terminals = c.terminals
    ∧ (Consignment.into_contract c).bundles = c.bundles
    ∧ (Consignment.into_contract c).extensions = c.extensions
    ∧ (Consignment.into_contract c).attachments = c.attachments
    ∧ (Consignment.into_contract c).signatures = c.signatures :=
  ⟨rfl, rfl, rfl, rfl, rfl, rfl, rfl, rfl, rfl, rfl, rfl, rfl, rfl⟩

end RgbStd
